import Mathlib

/-!
Verification of the EduEngage ML risk pipeline
(`src/ml_service/app.py` and `src/ml_service/train_comprehensive_model.py`).

Modelling conventions:
* Python floats are modelled as exact rationals (`ℚ`); a separate `PyFloat`
  fragment models IEEE NaN propagation where a claim turns on it.
* Timestamps are modelled as whole days (`Int`), `now` is an explicit
  parameter; `(now - t).days` becomes integer subtraction.  Fields that the
  code reads with `dict.get(key, default)` are modelled as `Option` with the
  same default applied at the read site.
* MongoDB ObjectId strings are modelled as validated 24-hex-character
  strings; the database is an in-memory association structure.
* `np.mean`/`np.max`/`np.min` on the nonempty lists the code guards for are
  `qmean`/`qmax`/`qmin`; `np.std` (population standard deviation) is modelled
  with Mathlib's rational square-root approximation `Rat.sqrt` — no theorem
  below depends on the value of a standard deviation beyond the empty /
  singleton cases, where it is exactly 0.
-/

/-- `learner.get('engagementData', {})` and the `engagement.get(field, 0)`
reads from app.py lines 193-207 / train lines 95-106: every field is optional
with the defaults applied at the read site. -/
structure EngagementData where
  totalHours : Option ℚ
  streakDays : Option Int
  avgSessionTime : Option ℚ
  completionRate : Option ℚ
  weeklyGoalHours : Option ℚ
  lastLogin : Option Int
deriving DecidableEq, Repr

/-- One element of `learner['enrollments']` (app.py lines 210-252). -/
structure Enrollment where
  progress : Option ℚ
  riskScore : Option ℚ
  status : Option String
  courseId : Option String
  lastActivity : Option Int
deriving DecidableEq, Repr

/-- One activity document (app.py lines 265-293). -/
structure Activity where
  type : Option String
  timestamp : Option Int
  duration : Option ℚ
deriving DecidableEq, Repr

/-- A learner document (app.py lines 169-210). -/
structure Learner where
  joinDate : Option Int
  engagementData : EngagementData
  enrollments : List Enrollment
deriving DecidableEq, Repr

/-- A course document, looked up during the difficulty join
(app.py lines 232-237). -/
structure Course where
  id : String
  difficulty : Option String
deriving DecidableEq, Repr

/-- The MongoDB collections the pipeline reads: learners keyed by ObjectId,
courses, and activities keyed by learner id. -/
structure DB where
  learners : List (String × Learner)
  courses : List Course
  activities : List (String × Activity)
deriving Repr

def isHexChar (c : Char) : Bool :=
  c.isDigit || ('a' ≤ c && c ≤ 'f') || ('A' ≤ c && c ≤ 'F')

/-- `ObjectId(learner_id_str)` from app.py lines 161-166: succeeds exactly on
a 24-character hex string, otherwise the constructor raises and the code
returns `None`. -/
def parseObjectId (s : String) : Option String :=
  if s.length == 24 && s.toList.all isHexChar then some s else none

/-- `np.mean` on a list of rationals (callers guard nonemptiness as the
source does). -/
def qmean (xs : List ℚ) : ℚ := xs.sum / (xs.length : ℚ)

/-- `np.max` on a nonempty list (0 on `[]`, a case the source never reaches). -/
def qmax : List ℚ → ℚ
  | [] => 0
  | x :: t => t.foldl max x

/-- `np.min` on a nonempty list (0 on `[]`, a case the source never reaches). -/
def qmin : List ℚ → ℚ
  | [] => 0
  | x :: t => t.foldl min x

/-- Population variance, the square of `np.std`. -/
def popVariance (xs : List ℚ) : ℚ :=
  qmean (xs.map (fun x => (x - qmean xs) ^ 2))

/-- `np.std` (population standard deviation), with the real square root
approximated by the rational square root; exact on the empty and singleton
lists (where it is 0), which are the only cases any theorem below uses. -/
def npStd (xs : List ℚ) : ℚ := Rat.sqrt (popVariance xs)

/-- The enrollment-aggregate block of the feature computation
(app.py lines 213-260 / train lines 112-155). -/
structure EnrollAgg where
  avg_progress : ℚ
  max_progress : ℚ
  min_progress : ℚ
  progress_std : ℚ
  avg_risk_score : ℚ
  max_risk_score : ℚ
  completed_courses : ℚ
  active_courses : ℚ
  at_risk_courses : ℚ
  beginner_courses : ℚ
  intermediate_courses : ℚ
  advanced_courses : ℚ
  avg_days_since_course_activity : ℚ
  max_days_since_course_activity : ℚ
deriving DecidableEq, Repr

/-- Serving-side enrollment aggregates, app.py lines 213-260.  Note the
defaults of the `else` branch (lines 254-260): every aggregate is 0 except
`avg_risk_score = max_risk_score = 0.3`, and the per-enrollment risk-score
read defaults to 0.3 (line 222). -/
def servingEnrollAgg (db : DB) (now : Int) (enrollments : List Enrollment) :
    EnrollAgg :=
  if enrollments.length > 0 then
    let progress_values := enrollments.map (fun e => e.progress.getD 0)
    let risk_scores := enrollments.map (fun e => e.riskScore.getD (3/10))
    let course_ids := enrollments.filterMap (fun e => e.courseId)
    let courses_info := db.courses.filter (fun c => course_ids.contains c.id)
    let last_activities :=
      enrollments.map (fun e => ((now - e.lastActivity.getD now : Int) : ℚ))
    { avg_progress := qmean progress_values
      max_progress := qmax progress_values
      min_progress := qmin progress_values
      progress_std :=
        if progress_values.length > 1 then npStd progress_values else 0
      avg_risk_score := qmean risk_scores
      max_risk_score := qmax risk_scores
      completed_courses :=
        ((enrollments.filter (fun e => e.status == some "completed")).length : ℚ)
      active_courses :=
        ((enrollments.filter (fun e => e.status == some "active")).length : ℚ)
      at_risk_courses :=
        ((enrollments.filter (fun e => e.status == some "at-risk")).length : ℚ)
      beginner_courses :=
        ((courses_info.filter (fun c => c.difficulty == some "beginner")).length : ℚ)
      intermediate_courses :=
        ((courses_info.filter (fun c => c.difficulty == some "intermediate")).length : ℚ)
      advanced_courses :=
        ((courses_info.filter (fun c => c.difficulty == some "advanced")).length : ℚ)
      avg_days_since_course_activity :=
        if last_activities.length > 0 then qmean last_activities else 0
      max_days_since_course_activity :=
        if last_activities.length > 0 then qmax last_activities else 0 }
  else
    { avg_progress := 0, max_progress := 0, min_progress := 0, progress_std := 0
      avg_risk_score := 3/10, max_risk_score := 3/10
      completed_courses := 0, active_courses := 0, at_risk_courses := 0
      beginner_courses := 0, intermediate_courses := 0, advanced_courses := 0
      avg_days_since_course_activity := 0, max_days_since_course_activity := 0 }

/-- The number of activities whose timestamp is at most `window` days old
(`days_ago <= 7` / `days_ago <= 30`, app.py lines 277-289). -/
def recentCount (now : Int) (window : Int) (activities : List Activity) : Nat :=
  (activities.filter (fun a => now - a.timestamp.getD now ≤ window)).length

/-- The activity-aggregate block (app.py lines 262-307). -/
structure ActAgg where
  total_activities : ℚ
  video_activities : ℚ
  quiz_activities : ℚ
  forum_activities : ℚ
  assignment_activities : ℚ
  recent_activities_7d : ℚ
  recent_activities_30d : ℚ
  avg_activity_duration : ℚ
  total_activity_time : ℚ
  max_activity_duration : ℚ
  activity_rate_daily : ℚ
  recent_activity_trend : ℚ
deriving DecidableEq, Repr

/-- Serving-side activity aggregates, app.py lines 262-307.  Durations ≤ 0
are excluded from the duration statistics; `activity_rate_daily` divides by
`max(days_since_join, 1)` unconditionally (line 299); `recent_activity_trend`
is 0 when there is no 30-day activity (line 300). -/
def servingActAgg (now : Int) (days_since_join : Int)
    (activities : List Activity) : ActAgg :=
  if activities.length > 0 then
    let total_activities := activities.length
    let recent_activities_7d := recentCount now 7 activities
    let recent_activities_30d := recentCount now 30 activities
    let activity_durations :=
      (activities.map (fun a => a.duration.getD 0)).filter (fun d => d > 0)
    { total_activities := (total_activities : ℚ)
      video_activities :=
        ((activities.filter (fun a => a.type == some "video_watch")).length : ℚ)
      quiz_activities :=
        ((activities.filter (fun a => a.type == some "quiz_attempt")).length : ℚ)
      forum_activities :=
        ((activities.filter (fun a => a.type == some "forum_post")).length : ℚ)
      assignment_activities :=
        ((activities.filter (fun a => a.type == some "assignment_submit")).length : ℚ)
      recent_activities_7d := (recent_activities_7d : ℚ)
      recent_activities_30d := (recent_activities_30d : ℚ)
      avg_activity_duration :=
        if activity_durations.length > 0 then qmean activity_durations else 0
      total_activity_time :=
        if activity_durations.length > 0 then activity_durations.sum else 0
      max_activity_duration :=
        if activity_durations.length > 0 then qmax activity_durations else 0
      activity_rate_daily :=
        (total_activities : ℚ) / ((max days_since_join 1 : Int) : ℚ)
      recent_activity_trend :=
        if recent_activities_30d > 0 then
          (recent_activities_7d : ℚ) / ((max recent_activities_30d 1 : Nat) : ℚ)
        else 0 }
  else
    { total_activities := 0, video_activities := 0, quiz_activities := 0
      forum_activities := 0, assignment_activities := 0
      recent_activities_7d := 0, recent_activities_30d := 0
      avg_activity_duration := 0, total_activity_time := 0
      max_activity_duration := 0
      activity_rate_daily := 0, recent_activity_trend := 0 }

/-- The full 42-field feature record computed per learner. -/
structure FeatureRecord where
  active_courses : ℚ
  activity_rate_daily : ℚ
  advanced_courses : ℚ
  assignment_activities : ℚ
  at_risk_courses : ℚ
  avg_activity_duration : ℚ
  avg_days_since_course_activity : ℚ
  avg_progress : ℚ
  avg_risk_score : ℚ
  avg_session_time : ℚ
  beginner_courses : ℚ
  completed_courses : ℚ
  completion_rate : ℚ
  course_load : ℚ
  days_since_join : ℚ
  days_since_last_login : ℚ
  declining_engagement : ℚ
  engagement_consistency : ℚ
  forum_activities : ℚ
  high_risk_courses_ratio : ℚ
  hours_per_day : ℚ
  inactivity_risk : ℚ
  intermediate_courses : ℚ
  low_progress_risk : ℚ
  max_activity_duration : ℚ
  max_days_since_course_activity : ℚ
  max_progress : ℚ
  max_risk_score : ℚ
  min_progress : ℚ
  progress_rate : ℚ
  progress_std : ℚ
  quiz_activities : ℚ
  recent_activities_30d : ℚ
  recent_activities_7d : ℚ
  recent_activity_trend : ℚ
  streak_days : ℚ
  total_activities : ℚ
  total_activity_time : ℚ
  total_courses : ℚ
  total_hours : ℚ
  video_activities : ℚ
  weekly_goal_hours : ℚ

/-- The serving-side per-learner feature computation, app.py lines 180-365:
basic profile, engagement pass-through, enrollment and activity aggregates,
derived ratios and binary risk indicators. -/
def computeFeatures (db : DB) (now : Int) (learner : Learner)
    (activities : List Activity) : FeatureRecord :=
  let join_date := learner.joinDate.getD now
  let days_since_join : Int := max (now - join_date) 0
  let eng := learner.engagementData
  let total_hours := eng.totalHours.getD 0
  let streak_days : Int := eng.streakDays.getD 0
  let avg_session_time := eng.avgSessionTime.getD 0
  let completion_rate := eng.completionRate.getD 0
  let weekly_goal_hours := eng.weeklyGoalHours.getD 0
  let last_login := eng.lastLogin.getD now
  let days_since_last_login : Int := max (now - last_login) 0
  let enrollments := learner.enrollments
  let total_courses : Nat := enrollments.length
  let ea := servingEnrollAgg db now enrollments
  let aa := servingActAgg now days_since_join activities
  let engagement_consistency :=
    (streak_days : ℚ) / ((max days_since_join 1 : Int) : ℚ)
  let progress_rate :=
    if days_since_join > 0 then
      ea.avg_progress / ((max days_since_join 1 : Int) : ℚ)
    else 0
  let course_load :=
    if days_since_join > 0 then
      (total_courses : ℚ) / max ((days_since_join : ℚ) / 30) 1
    else 0
  let hours_per_day := total_hours / ((max days_since_join 1 : Int) : ℚ)
  let inactivity_risk : ℚ := if days_since_last_login > 14 then 1 else 0
  let low_progress_risk : ℚ :=
    if ea.avg_progress < 1/5 ∧ total_courses > 0 then 1 else 0
  let high_risk_courses_ratio :=
    if total_courses > 0 then
      ea.at_risk_courses / ((max total_courses 1 : Nat) : ℚ)
    else 0
  let declining_engagement : ℚ :=
    if aa.recent_activity_trend < 1/2 ∧ aa.recent_activities_30d > 0 then 1
    else 0
  { active_courses := ea.active_courses
    activity_rate_daily := aa.activity_rate_daily
    advanced_courses := ea.advanced_courses
    assignment_activities := aa.assignment_activities
    at_risk_courses := ea.at_risk_courses
    avg_activity_duration := aa.avg_activity_duration
    avg_days_since_course_activity := ea.avg_days_since_course_activity
    avg_progress := ea.avg_progress
    avg_risk_score := ea.avg_risk_score
    avg_session_time := avg_session_time
    beginner_courses := ea.beginner_courses
    completed_courses := ea.completed_courses
    completion_rate := completion_rate
    course_load := course_load
    days_since_join := (days_since_join : ℚ)
    days_since_last_login := (days_since_last_login : ℚ)
    declining_engagement := declining_engagement
    engagement_consistency := engagement_consistency
    forum_activities := aa.forum_activities
    high_risk_courses_ratio := high_risk_courses_ratio
    hours_per_day := hours_per_day
    inactivity_risk := inactivity_risk
    intermediate_courses := ea.intermediate_courses
    low_progress_risk := low_progress_risk
    max_activity_duration := aa.max_activity_duration
    max_days_since_course_activity := ea.max_days_since_course_activity
    max_progress := ea.max_progress
    max_risk_score := ea.max_risk_score
    min_progress := ea.min_progress
    progress_rate := progress_rate
    progress_std := ea.progress_std
    quiz_activities := aa.quiz_activities
    recent_activities_30d := aa.recent_activities_30d
    recent_activities_7d := aa.recent_activities_7d
    recent_activity_trend := aa.recent_activity_trend
    streak_days := (streak_days : ℚ)
    total_activities := aa.total_activities
    total_activity_time := aa.total_activity_time
    total_courses := (total_courses : ℚ)
    total_hours := total_hours
    video_activities := aa.video_activities
    weekly_goal_hours := weekly_goal_hours }

/-- The `features` list compiled at app.py lines 322-365, in that exact
(alphabetical) order. -/
def featuresList (r : FeatureRecord) : List ℚ :=
  [r.active_courses, r.activity_rate_daily, r.advanced_courses,
   r.assignment_activities, r.at_risk_courses, r.avg_activity_duration,
   r.avg_days_since_course_activity, r.avg_progress, r.avg_risk_score,
   r.avg_session_time, r.beginner_courses, r.completed_courses,
   r.completion_rate, r.course_load, r.days_since_join,
   r.days_since_last_login, r.declining_engagement, r.engagement_consistency,
   r.forum_activities, r.high_risk_courses_ratio, r.hours_per_day,
   r.inactivity_risk, r.intermediate_courses, r.low_progress_risk,
   r.max_activity_duration, r.max_days_since_course_activity, r.max_progress,
   r.max_risk_score, r.min_progress, r.progress_rate, r.progress_std,
   r.quiz_activities, r.recent_activities_30d, r.recent_activities_7d,
   r.recent_activity_trend, r.streak_days, r.total_activities,
   r.total_activity_time, r.total_courses, r.total_hours,
   r.video_activities, r.weekly_goal_hours]

/-- `extract_learner_features` (app.py lines 155-373): parse the identifier,
look the learner up, gather its activities, and compute the feature vector;
`None` on an unparseable identifier or a missing learner. -/
def extract_learner_features (db : DB) (now : Int) (learner_id_str : String) :
    Option (List ℚ) :=
  match parseObjectId learner_id_str with
  | none => none
  | some learner_id =>
    match db.learners.find? (fun p => p.1 == learner_id) with
    | none => none
    | some p =>
      let activities := (db.activities.filter (fun q => q.1 == learner_id)).map (·.2)
      some (featuresList (computeFeatures db now p.2 activities))

/-- Training-side enrollment aggregates, train_comprehensive_model.py lines
112-155.  Differences from serving: the per-enrollment risk-score read
defaults to 0 (line 121), `np.std` has no length guard (line 118), the
course-id list keeps missing ids (line 131), the day-since-activity means
have no emptiness guard (lines 147-148), and the zero-enrollment defaults
set `avg_risk_score = max_risk_score = 0` (line 152). -/
def trainingEnrollAgg (db : DB) (now : Int) (enrollments : List Enrollment) :
    EnrollAgg :=
  if enrollments.length > 0 then
    let progress_values := enrollments.map (fun e => e.progress.getD 0)
    let risk_scores := enrollments.map (fun e => e.riskScore.getD 0)
    let course_ids := enrollments.map (fun e => e.courseId)
    let courses_info := db.courses.filter (fun c => course_ids.contains (some c.id))
    let last_activities :=
      enrollments.map (fun e => ((now - e.lastActivity.getD now : Int) : ℚ))
    { avg_progress := qmean progress_values
      max_progress := qmax progress_values
      min_progress := qmin progress_values
      progress_std := npStd progress_values
      avg_risk_score := qmean risk_scores
      max_risk_score := qmax risk_scores
      completed_courses :=
        ((enrollments.filter (fun e => e.status == some "completed")).length : ℚ)
      active_courses :=
        ((enrollments.filter (fun e => e.status == some "active")).length : ℚ)
      at_risk_courses :=
        ((enrollments.filter (fun e => e.status == some "at-risk")).length : ℚ)
      beginner_courses :=
        ((courses_info.filter (fun c => c.difficulty == some "beginner")).length : ℚ)
      intermediate_courses :=
        ((courses_info.filter (fun c => c.difficulty == some "intermediate")).length : ℚ)
      advanced_courses :=
        ((courses_info.filter (fun c => c.difficulty == some "advanced")).length : ℚ)
      avg_days_since_course_activity := qmean last_activities
      max_days_since_course_activity := qmax last_activities }
  else
    { avg_progress := 0, max_progress := 0, min_progress := 0, progress_std := 0
      avg_risk_score := 0, max_risk_score := 0
      completed_courses := 0, active_courses := 0, at_risk_courses := 0
      beginner_courses := 0, intermediate_courses := 0, advanced_courses := 0
      avg_days_since_course_activity := 0, max_days_since_course_activity := 0 }

/-- Training-side activity aggregates, train lines 157-205.  The only
difference from serving: `activity_rate_daily` is additionally guarded by
`if days_since_join > 0` (line 198). -/
def trainingActAgg (now : Int) (days_since_join : Int)
    (activities : List Activity) : ActAgg :=
  if activities.length > 0 then
    let total_activities := activities.length
    let recent_activities_7d := recentCount now 7 activities
    let recent_activities_30d := recentCount now 30 activities
    let activity_durations :=
      (activities.map (fun a => a.duration.getD 0)).filter (fun d => d > 0)
    { total_activities := (total_activities : ℚ)
      video_activities :=
        ((activities.filter (fun a => a.type == some "video_watch")).length : ℚ)
      quiz_activities :=
        ((activities.filter (fun a => a.type == some "quiz_attempt")).length : ℚ)
      forum_activities :=
        ((activities.filter (fun a => a.type == some "forum_post")).length : ℚ)
      assignment_activities :=
        ((activities.filter (fun a => a.type == some "assignment_submit")).length : ℚ)
      recent_activities_7d := (recent_activities_7d : ℚ)
      recent_activities_30d := (recent_activities_30d : ℚ)
      avg_activity_duration :=
        if activity_durations.length > 0 then qmean activity_durations else 0
      total_activity_time :=
        if activity_durations.length > 0 then activity_durations.sum else 0
      max_activity_duration :=
        if activity_durations.length > 0 then qmax activity_durations else 0
      activity_rate_daily :=
        if days_since_join > 0 then
          (total_activities : ℚ) / ((max days_since_join 1 : Int) : ℚ)
        else 0
      recent_activity_trend :=
        if recent_activities_30d > 0 then
          (recent_activities_7d : ℚ) / ((max recent_activities_30d 1 : Nat) : ℚ)
        else 0 }
  else
    { total_activities := 0, video_activities := 0, quiz_activities := 0
      forum_activities := 0, assignment_activities := 0
      recent_activities_7d := 0, recent_activities_30d := 0
      avg_activity_duration := 0, total_activity_time := 0
      max_activity_duration := 0
      activity_rate_daily := 0, recent_activity_trend := 0 }

/-- The training-side per-learner feature computation,
train_comprehensive_model.py lines 87-228.  The join date comes from the
users collection's profile (lines 88-92) and is passed here as a parameter;
`engagement_consistency` and `hours_per_day` carry an extra
`if days_since_join > 0` guard (lines 208, 211). -/
def trainingComputeFeatures (db : DB) (now : Int) (profileJoinDate : Option Int)
    (learner : Learner) (activities : List Activity) : FeatureRecord :=
  let join_date := profileJoinDate.getD now
  let days_since_join : Int := max (now - join_date) 0
  let eng := learner.engagementData
  let total_hours := eng.totalHours.getD 0
  let streak_days : Int := eng.streakDays.getD 0
  let avg_session_time := eng.avgSessionTime.getD 0
  let completion_rate := eng.completionRate.getD 0
  let weekly_goal_hours := eng.weeklyGoalHours.getD 0
  let last_login := eng.lastLogin.getD now
  let days_since_last_login : Int := max (now - last_login) 0
  let enrollments := learner.enrollments
  let total_courses : Nat := enrollments.length
  let ea := trainingEnrollAgg db now enrollments
  let aa := trainingActAgg now days_since_join activities
  let engagement_consistency :=
    if days_since_join > 0 then
      (streak_days : ℚ) / ((max days_since_join 1 : Int) : ℚ)
    else 0
  let progress_rate :=
    if days_since_join > 0 then
      ea.avg_progress / ((max days_since_join 1 : Int) : ℚ)
    else 0
  let course_load :=
    if days_since_join > 0 then
      (total_courses : ℚ) / max ((days_since_join : ℚ) / 30) 1
    else 0
  let hours_per_day :=
    if days_since_join > 0 then
      total_hours / ((max days_since_join 1 : Int) : ℚ)
    else 0
  let inactivity_risk : ℚ := if days_since_last_login > 14 then 1 else 0
  let low_progress_risk : ℚ :=
    if ea.avg_progress < 1/5 ∧ total_courses > 0 then 1 else 0
  let high_risk_courses_ratio :=
    if total_courses > 0 then
      ea.at_risk_courses / ((max total_courses 1 : Nat) : ℚ)
    else 0
  let declining_engagement : ℚ :=
    if aa.recent_activity_trend < 1/2 ∧ aa.recent_activities_30d > 0 then 1
    else 0
  { active_courses := ea.active_courses
    activity_rate_daily := aa.activity_rate_daily
    advanced_courses := ea.advanced_courses
    assignment_activities := aa.assignment_activities
    at_risk_courses := ea.at_risk_courses
    avg_activity_duration := aa.avg_activity_duration
    avg_days_since_course_activity := ea.avg_days_since_course_activity
    avg_progress := ea.avg_progress
    avg_risk_score := ea.avg_risk_score
    avg_session_time := avg_session_time
    beginner_courses := ea.beginner_courses
    completed_courses := ea.completed_courses
    completion_rate := completion_rate
    course_load := course_load
    days_since_join := (days_since_join : ℚ)
    days_since_last_login := (days_since_last_login : ℚ)
    declining_engagement := declining_engagement
    engagement_consistency := engagement_consistency
    forum_activities := aa.forum_activities
    high_risk_courses_ratio := high_risk_courses_ratio
    hours_per_day := hours_per_day
    inactivity_risk := inactivity_risk
    intermediate_courses := ea.intermediate_courses
    low_progress_risk := low_progress_risk
    max_activity_duration := aa.max_activity_duration
    max_days_since_course_activity := ea.max_days_since_course_activity
    max_progress := ea.max_progress
    max_risk_score := ea.max_risk_score
    min_progress := ea.min_progress
    progress_rate := progress_rate
    progress_std := ea.progress_std
    quiz_activities := aa.quiz_activities
    recent_activities_30d := aa.recent_activities_30d
    recent_activities_7d := aa.recent_activities_7d
    recent_activity_trend := aa.recent_activity_trend
    streak_days := (streak_days : ℚ)
    total_activities := aa.total_activities
    total_activity_time := aa.total_activity_time
    total_courses := (total_courses : ℚ)
    total_hours := total_hours
    video_activities := aa.video_activities
    weekly_goal_hours := weekly_goal_hours }

/-- The training feature row in the insertion order of the `features` dict at
train_comprehensive_model.py lines 231-295 (pandas keeps this column order),
excluding the target `is_high_risk` and the metadata `learner_id`, exactly as
`feature_columns` filters them at line 322. -/
def trainingFeaturesList (r : FeatureRecord) : List ℚ :=
  [r.days_since_join, r.days_since_last_login, r.total_hours, r.streak_days,
   r.avg_session_time, r.completion_rate, r.weekly_goal_hours,
   r.total_courses, r.avg_progress, r.max_progress, r.min_progress,
   r.progress_std, r.avg_risk_score, r.max_risk_score, r.completed_courses,
   r.active_courses, r.at_risk_courses, r.beginner_courses,
   r.intermediate_courses, r.advanced_courses, r.total_activities,
   r.video_activities, r.quiz_activities, r.forum_activities,
   r.assignment_activities, r.recent_activities_7d, r.recent_activities_30d,
   r.avg_activity_duration, r.total_activity_time, r.max_activity_duration,
   r.engagement_consistency, r.progress_rate, r.course_load, r.hours_per_day,
   r.activity_rate_daily, r.recent_activity_trend,
   r.avg_days_since_course_activity, r.max_days_since_course_activity,
   r.inactivity_risk, r.low_progress_risk, r.high_risk_courses_ratio,
   r.declining_engagement]

/-- The names of the serving-side `features` list entries, in the order of
app.py lines 322-365 (the list the comment at line 321 calls "sorted
alphabetically for consistency"). -/
def servingFeatureNames : List String :=
  ["active_courses", "activity_rate_daily", "advanced_courses",
   "assignment_activities", "at_risk_courses", "avg_activity_duration",
   "avg_days_since_course_activity", "avg_progress", "avg_risk_score",
   "avg_session_time", "beginner_courses", "completed_courses",
   "completion_rate", "course_load", "days_since_join",
   "days_since_last_login", "declining_engagement", "engagement_consistency",
   "forum_activities", "high_risk_courses_ratio", "hours_per_day",
   "inactivity_risk", "intermediate_courses", "low_progress_risk",
   "max_activity_duration", "max_days_since_course_activity", "max_progress",
   "max_risk_score", "min_progress", "progress_rate", "progress_std",
   "quiz_activities", "recent_activities_30d", "recent_activities_7d",
   "recent_activity_trend", "streak_days", "total_activities",
   "total_activity_time", "total_courses", "total_hours",
   "video_activities", "weekly_goal_hours"]

/-- The keys of the training `features` dict in insertion order
(train_comprehensive_model.py lines 231-295), which is the pandas column
order of the training DataFrame. -/
def trainingFeatureDictKeys : List String :=
  ["days_since_join", "days_since_last_login", "total_hours", "streak_days",
   "avg_session_time", "completion_rate", "weekly_goal_hours",
   "total_courses", "avg_progress", "max_progress", "min_progress",
   "progress_std", "avg_risk_score", "max_risk_score", "completed_courses",
   "active_courses", "at_risk_courses", "beginner_courses",
   "intermediate_courses", "advanced_courses", "total_activities",
   "video_activities", "quiz_activities", "forum_activities",
   "assignment_activities", "recent_activities_7d", "recent_activities_30d",
   "avg_activity_duration", "total_activity_time", "max_activity_duration",
   "engagement_consistency", "progress_rate", "course_load", "hours_per_day",
   "activity_rate_daily", "recent_activity_trend",
   "avg_days_since_course_activity", "max_days_since_course_activity",
   "inactivity_risk", "low_progress_risk", "high_risk_courses_ratio",
   "declining_engagement", "is_high_risk", "learner_id"]

/-- `feature_columns` as computed at train_comprehensive_model.py line 322:
every DataFrame column except the target and the metadata id, in column
order; this is the order the classifier is fit on and the list saved to
`feature_names.json`. -/
def feature_columns : List String :=
  trainingFeatureDictKeys.filter
    (fun col => !(col == "is_high_risk" || col == "learner_id"))

/-- The discrete risk bucket (`'high' if p > 0.7 else 'medium' if p > 0.3
else 'low'`, app.py lines 413, 456, 533). -/
inductive RiskLevel
  | low
  | medium
  | high
deriving DecidableEq, Repr

/-- The threshold expression shared verbatim by `predict_risk` (app.py line
413), `predict_batch` (line 456) and `get_learner_analysis` (line 533). -/
def riskLevel (risk_score : ℚ) : RiskLevel :=
  if risk_score > 7/10 then .high
  else if risk_score > 3/10 then .medium
  else .low

/-- Severity order low < medium < high. -/
def severity : RiskLevel → Nat
  | .low => 0
  | .medium => 1
  | .high => 2

/-- Modelled from the spec: the risk-level bucketing as claim C2 words it,
with the medium threshold at 0.4 instead of the code's 0.3 (spec §4.4
"medium if p > 0.4").  Used only to compare against `riskLevel`. -/
def riskLevelSpec04 (p : ℚ) : RiskLevel :=
  if p > 7/10 then .high
  else if p > 4/10 then .medium
  else .low

/-- The JSON body of a successful `/predict` response (app.py lines
415-421). -/
structure RiskAssessment where
  learner_id : String
  risk_score : ℚ
  risk_level : RiskLevel
  features_used : Nat
  timestamp : Int
deriving DecidableEq, Repr

/-- The keys of the `result` dict built at app.py lines 415-421, in source
order. -/
def predictResponseKeys : List String :=
  ["learner_id", "risk_score", "risk_level", "features_used", "timestamp"]

/-- Outcome of the `/predict` route: 200 with a body, 400 when the request
carries no `learner_id`, 404 when feature extraction returns `None`. -/
inductive PredictResult
  | ok (body : RiskAssessment)
  | badRequest (msg : String)
  | notFound (msg : String)
deriving DecidableEq, Repr

/-- The HTTP status attached to each `/predict` outcome
(app.py lines 398, 406, 424). -/
def statusCode : PredictResult → Nat
  | .ok _ => 200
  | .badRequest _ => 400
  | .notFound _ => 404

/-- `predict_risk` (app.py lines 391-428): the request's `learner_id` field
(absent ⇒ 400), feature extraction (`None` ⇒ 404), then the classifier
probability and the bucketed risk level.  The classifier is the external
`model.predict_proba(...)[0][1]`, modelled as a function from the feature
vector to a probability. -/
def predict_risk (db : DB) (model : List ℚ → ℚ) (now : Int)
    (learner_id? : Option String) : PredictResult :=
  match learner_id? with
  | none => .badRequest "learner_id is required"
  | some learner_id =>
    match extract_learner_features db now learner_id with
    | none => .notFound "Learner not found or could not extract features"
    | some features =>
      let risk_score := model features
      .ok { learner_id := learner_id
            risk_score := risk_score
            risk_level := riskLevel risk_score
            features_used := features.length
            timestamp := now }

/-- One element of the `results` list of `/predict/batch`
(app.py lines 447-462). -/
inductive BatchEntry
  | ok (learner_id : String) (risk_score : ℚ) (risk_level : RiskLevel)
  | error (learner_id : String) (msg : String)
deriving DecidableEq, Repr

/-- Whether a batch entry is the per-identifier error marker. -/
def BatchEntry.isError : BatchEntry → Bool
  | .ok _ _ _ => false
  | .error _ _ => true

/-- `predict_batch` (app.py lines 442-462): each identifier is processed in
order; a failed extraction appends an error entry and the loop continues
with the next identifier. -/
def predict_batch (db : DB) (model : List ℚ → ℚ) (now : Int)
    (learner_ids : List String) : List BatchEntry :=
  learner_ids.map (fun learner_id =>
    match extract_learner_features db now learner_id with
    | none => .error learner_id "Could not extract features"
    | some features =>
      let risk_score := model features
      .ok learner_id risk_score (riskLevel risk_score))

/-- IEEE-float fragment for the NaN-propagation analysis: a Python float is
a finite rational, NaN, or ±Inf.  (The main model above uses exact
rationals, which cannot represent NaN.) -/
inductive PyFloat
  | num (q : ℚ)
  | nan
  | inf
  | ninf
deriving DecidableEq, Repr

/-- IEEE division on `PyFloat` (the cases the pipeline can reach): NaN
propagates through every division. -/
def PyFloat.div : PyFloat → PyFloat → PyFloat
  | .nan, _ => .nan
  | _, .nan => .nan
  | .inf, .num b => if b < 0 then .ninf else .inf
  | .ninf, .num b => if b < 0 then .inf else .ninf
  | .inf, _ => .nan
  | .ninf, _ => .nan
  | .num a, .inf => if a == 0 then .num 0 else .num 0
  | .num a, .ninf => if a == 0 then .num 0 else .num 0
  | .num a, .num b =>
    if b == 0 then
      (if a == 0 then .nan else if a > 0 then .inf else .ninf)
    else .num (a / b)

/-- The `total_hours` data path of `extract_learner_features` over IEEE
floats (app.py lines 194, 313, 343, 362): `total_hours =
float(engagement.get('totalHours', 0))` passes through unchanged into vector
slot 39, and `hours_per_day = total_hours / max(days_since_join, 1)` into
slot 20.  No NaN/Inf coercion (`np.nan_to_num` or otherwise) appears
anywhere in app.py between these reads and `model.predict_proba`. -/
def servingTotalHoursSlots (totalHours : PyFloat) (days_since_join : Int) :
    List PyFloat :=
  let total_hours := totalHours
  let hours_per_day := total_hours.div (.num ((max days_since_join 1 : Int) : ℚ))
  [hours_per_day, total_hours]

/-- Modelled from the spec (§4.2 "any NaN/Inf produced by upstream garbage
values is coerced to 0 before the vector is handed to the classifier"): the
coercion the spec requires.  No counterpart exists in app.py. -/
def coerceNonFinite : PyFloat → PyFloat
  | .num q => .num q
  | _ => .num 0

/-- Division that fails (returns `none`) on a zero denominator, used to show
the pipeline's guarded ratios never divide by zero. -/
def qdiv? (a b : ℚ) : Option ℚ := if b = 0 then none else some (a / b)

/-- Every division performed by the seven derived-ratio features of
`computeFeatures` / `servingActAgg` (app.py lines 299-300, 309-319), redone
with the checked division `qdiv?`: a `none` result would witness a division
by zero.  The guards and denominators are exactly those of the source. -/
def checkedRatios (db : DB) (now : Int) (learner : Learner)
    (activities : List Activity) : Option (List ℚ) :=
  let join_date := learner.joinDate.getD now
  let days_since_join : Int := max (now - join_date) 0
  let eng := learner.engagementData
  let total_hours := eng.totalHours.getD 0
  let streak_days : Int := eng.streakDays.getD 0
  let enrollments := learner.enrollments
  let total_courses : Nat := enrollments.length
  let ea := servingEnrollAgg db now enrollments
  let recent_activities_7d := recentCount now 7 activities
  let recent_activities_30d := recentCount now 30 activities
  do
    let engagement_consistency ←
      qdiv? (streak_days : ℚ) ((max days_since_join 1 : Int) : ℚ)
    let progress_rate ←
      if days_since_join > 0 then
        qdiv? ea.avg_progress ((max days_since_join 1 : Int) : ℚ)
      else pure 0
    let course_load ←
      if days_since_join > 0 then
        qdiv? (total_courses : ℚ) (max ((days_since_join : ℚ) / 30) 1)
      else pure 0
    let hours_per_day ←
      qdiv? total_hours ((max days_since_join 1 : Int) : ℚ)
    let activity_rate_daily ←
      if activities.length > 0 then
        qdiv? ((activities.length : ℚ)) ((max days_since_join 1 : Int) : ℚ)
      else pure 0
    let recent_activity_trend ←
      if activities.length > 0 then
        if recent_activities_30d > 0 then
          qdiv? (recent_activities_7d : ℚ) ((max recent_activities_30d 1 : Nat) : ℚ)
        else pure 0
      else pure 0
    let high_risk_courses_ratio ←
      if total_courses > 0 then
        qdiv? ea.at_risk_courses ((max total_courses 1 : Nat) : ℚ)
      else pure 0
    pure [engagement_consistency, progress_rate, course_load, hours_per_day,
          activity_rate_daily, recent_activity_trend, high_risk_courses_ratio]

/-- A valid 24-hex-character ObjectId present in the test store. -/
def oid1 : String := "aaaaaaaaaaaaaaaaaaaaaaaa"

/-- A second valid ObjectId present in the test store. -/
def oid2 : String := "bbbbbbbbbbbbbbbbbbbbbbbb"

/-- A valid ObjectId with no learner record behind it. -/
def oid3 : String := "cccccccccccccccccccccccc"

/-- An engagement summary with every field absent. -/
def engEmpty : EngagementData :=
  { totalHours := none, streakDays := none, avgSessionTime := none,
    completionRate := none, weeklyGoalHours := none, lastLogin := none }

/-- A learner with zero enrollments. -/
def learnerNoEnroll : Learner :=
  { joinDate := some 0, engagementData := engEmpty, enrollments := [] }

/-- One active enrollment. -/
def enrollActive : Enrollment :=
  { progress := some (1/2), riskScore := some (2/5), status := some "active",
    courseId := some oid3, lastActivity := some 90 }

/-- A learner with one enrollment, a 40-day-old join date and some
engagement. -/
def learnerOneEnroll : Learner :=
  { joinDate := some 40
    engagementData :=
      { totalHours := some 10, streakDays := some 5, avgSessionTime := none,
        completionRate := none, weeklyGoalHours := none, lastLogin := some 95 }
    enrollments := [enrollActive] }

/-- The concrete test store: two learners, no courses, no activities. -/
def db0 : DB :=
  { learners := [(oid1, learnerNoEnroll), (oid2, learnerOneEnroll)]
    courses := []
    activities := [] }

/-- The fixed "now" of the test runs. -/
def now0 : Int := 100

/-- A stub classifier returning probability 1/2 for every vector. -/
def model0 : List ℚ → ℚ := fun _ => 1/2

/-- The successful `/predict` body for `oid1` under `model0` at `now0`. -/
def resp0 : RiskAssessment :=
  { learner_id := oid1, risk_score := 1/2, risk_level := RiskLevel.medium,
    features_used := 42, timestamp := now0 }

/-- Characterization of the three buckets of `riskLevel`: high exactly above
0.7, medium exactly on (0.3, 0.7], low exactly up to 0.3. -/
theorem riskLevel_iff (p : ℚ) :
    (riskLevel p = RiskLevel.high ↔ 7/10 < p) ∧
    (riskLevel p = RiskLevel.medium ↔ 3/10 < p ∧ p ≤ 7/10) ∧
    (riskLevel p = RiskLevel.low ↔ p ≤ 3/10) := by
  unfold riskLevel
  split_ifs with h1 h2
  · exact ⟨⟨fun _ => h1, fun _ => rfl⟩,
      ⟨fun h => absurd h (by decide), fun hc => absurd h1 (not_lt.mpr hc.2)⟩,
      ⟨fun h => absurd h (by decide),
       fun hc => absurd hc (not_le.mpr (by linarith))⟩⟩
  · exact ⟨⟨fun h => absurd h (by decide), fun hlt => absurd hlt h1⟩,
      ⟨fun _ => ⟨h2, not_lt.mp h1⟩, fun _ => rfl⟩,
      ⟨fun h => absurd h (by decide), fun hle => absurd h2 (not_lt.mpr hle)⟩⟩
  · exact ⟨⟨fun h => absurd h (by decide), fun hlt => absurd hlt h1⟩,
      ⟨fun h => absurd h (by decide), fun hc => absurd hc.1 h2⟩,
      ⟨fun _ => not_lt.mp h2, fun _ => rfl⟩⟩

/-- A successfully extracted feature vector always has 42 entries. -/
theorem extract_some_length (db : DB) (now : Int) (id : String)
    (fs : List ℚ) (h : extract_learner_features db now id = some fs) :
    fs.length = 42 := by
  unfold extract_learner_features at h
  split at h
  · simp at h
  · split at h
    · simp at h
    · simp only [Option.some.injEq] at h
      rw [← h]
      rfl

/-- Inversion of a successful `/predict` call: the body is built from the
extracted feature vector and the classifier probability. -/
theorem predict_ok_inv (db : DB) (model : List ℚ → ℚ) (now : Int)
    (id : String) (r : RiskAssessment)
    (h : predict_risk db model now (some id) = .ok r) :
    ∃ fs, extract_learner_features db now id = some fs ∧
      r = { learner_id := id, risk_score := model fs,
            risk_level := riskLevel (model fs),
            features_used := fs.length, timestamp := now } := by
  cases hE : extract_learner_features db now id with
  | none => simp [predict_risk, hE] at h
  | some fs =>
    simp only [predict_risk, hE, PredictResult.ok.injEq] at h
    exact ⟨fs, rfl, h.symm⟩

/-- C1 (code_bug): the serving-side feature order of app.py lines 322-365 is
alphabetical, while the training column order saved as `feature_columns`
(train_comprehensive_model.py lines 231-295, 322) is the dict insertion
order; both name the same 42 features, but the orders differ already at
index 0 (`active_courses` vs `days_since_join`), and serializing one record
the two ways yields different vectors. -/
theorem c1_feature_order_mismatch :
    feature_columns.length = 42 ∧
    servingFeatureNames.length = 42 ∧
    servingFeatureNames.isPerm feature_columns = true ∧
    servingFeatureNames.head? = some "active_courses" ∧
    feature_columns.head? = some "days_since_join" ∧
    servingFeatureNames ≠ feature_columns ∧
    (featuresList (computeFeatures db0 now0 learnerOneEnroll [])).head? ≠
      (trainingFeaturesList (computeFeatures db0 now0 learnerOneEnroll [])).head? := by
  refine ⟨by decide, by decide, by decide, by decide, by decide, by decide,
    by with_unfolding_all decide⟩

/-- C2 counterexample: at probability 0.35 the single-inference pipeline
(`predict_risk`) assigns `medium`, while the claim's thresholds (medium only
above 0.4, `riskLevelSpec04`) assign `low`. -/
theorem c2_threshold_counterexample :
    predict_risk db0 (fun _ => 7/20) now0 (some oid1) =
      .ok { learner_id := oid1, risk_score := 7/20,
            risk_level := RiskLevel.medium, features_used := 42,
            timestamp := now0 } ∧
    riskLevelSpec04 (7/20) = RiskLevel.low ∧
    RiskLevel.medium ≠ RiskLevel.low := by
  refine ⟨by with_unfolding_all rfl, by with_unfolding_all rfl, by decide⟩

/-- C2 (amended): in single inference the risk assessor assigns
`risk_level = high` iff p > 0.7, `medium` iff 0.3 < p ≤ 0.7, and `low` iff
p ≤ 0.3 — the medium threshold is 0.3, not 0.4. -/
theorem c2_risk_level_buckets (db : DB) (model : List ℚ → ℚ) (now : Int)
    (id : String) (r : RiskAssessment)
    (h : predict_risk db model now (some id) = .ok r) :
    (r.risk_level = RiskLevel.high ↔ 7/10 < r.risk_score) ∧
    (r.risk_level = RiskLevel.medium ↔ 3/10 < r.risk_score ∧ r.risk_score ≤ 7/10) ∧
    (r.risk_level = RiskLevel.low ↔ r.risk_score ≤ 3/10) := by
  obtain ⟨fs, -, rfl⟩ := predict_ok_inv db model now id r h
  exact riskLevel_iff (model fs)

/-- C2 witness: the amended bucket characterization instantiated on a
concrete successful prediction. -/
theorem c2_risk_level_buckets_witness :
    (resp0.risk_level = RiskLevel.high ↔ 7/10 < resp0.risk_score) ∧
    (resp0.risk_level = RiskLevel.medium ↔
      3/10 < resp0.risk_score ∧ resp0.risk_score ≤ 7/10) ∧
    (resp0.risk_level = RiskLevel.low ↔ resp0.risk_score ≤ 3/10) :=
  c2_risk_level_buckets db0 model0 now0 oid1 resp0 (by with_unfolding_all rfl)

/-- C3 counterexample: an identifier that cannot be parsed into an ObjectId
("zzz") is surfaced by `predict_risk` with status 404, not the
400-equivalent the claim requires; 400 is reserved for a request with no
`learner_id` at all. -/
theorem c3_invalid_id_counterexample :
    parseObjectId "zzz" = none ∧
    statusCode (predict_risk db0 model0 now0 (some "zzz")) = 404 ∧
    statusCode (predict_risk db0 model0 now0 (some "zzz")) ≠ 400 ∧
    statusCode (predict_risk db0 model0 now0 none) = 400 := by
  refine ⟨rfl, by with_unfolding_all rfl, by with_unfolding_all decide, rfl⟩

/-- C3 (amended): the two failure kinds are conflated — both an unparseable
identifier and a well-formed identifier with no learner record make
`extract_learner_features` return `None`, and `predict_risk` surfaces both
as the same 404-equivalent response. -/
theorem c3_both_failures_conflated :
    (∀ (db : DB) (model : List ℚ → ℚ) (now : Int) (id : String),
      parseObjectId id = none →
      statusCode (predict_risk db model now (some id)) = 404) ∧
    (∀ (db : DB) (model : List ℚ → ℚ) (now : Int) (id oid : String),
      parseObjectId id = some oid →
      db.learners.find? (fun p => p.1 == oid) = none →
      statusCode (predict_risk db model now (some id)) = 404) := by
  constructor
  · intro db model now id hp
    simp [predict_risk, extract_learner_features, hp, statusCode]
  · intro db model now id oid hp hf
    simp [predict_risk, extract_learner_features, hp, hf, statusCode]

/-- C3 witness: both 404 branches exercised on the concrete store — an
unparseable identifier and a valid but absent ObjectId. -/
theorem c3_both_failures_conflated_witness :
    statusCode (predict_risk db0 model0 now0 (some "zzz")) = 404 ∧
    statusCode (predict_risk db0 model0 now0 (some oid3)) = 404 :=
  ⟨c3_both_failures_conflated.1 db0 model0 now0 "zzz" rfl,
   c3_both_failures_conflated.2 db0 model0 now0 oid3 oid3 rfl (by decide)⟩

/-- C4 counterexample: the successful `/predict` response dict has exactly
the keys `learner_id, risk_score, risk_level, features_used, timestamp`; it
carries no `intervention_needed` field (and no `identifier` or
`top_factors` fields), while a successful response does exist. -/
theorem c4_no_intervention_flag :
    "intervention_needed" ∉ predictResponseKeys ∧
    "identifier" ∉ predictResponseKeys ∧
    "top_factors" ∉ predictResponseKeys ∧
    "learner_id" ∈ predictResponseKeys ∧
    statusCode (predict_risk db0 model0 now0 (some oid1)) = 200 := by
  refine ⟨by decide, by decide, by decide, by decide, by with_unfolding_all rfl⟩

/-- C4 (amended): every successful single-inference response consists of
`learner_id` (echoing the requested identifier), `risk_score`, `risk_level`
(bucketed from the score), `features_used = 42` and `timestamp`; no
`intervention_needed` field is emitted. -/
theorem c4_response_shape (db : DB) (model : List ℚ → ℚ) (now : Int)
    (id : String) (r : RiskAssessment)
    (h : predict_risk db model now (some id) = .ok r) :
    r.learner_id = id ∧
    r.risk_level = riskLevel r.risk_score ∧
    r.features_used = 42 ∧
    r.timestamp = now ∧
    predictResponseKeys = ["learner_id", "risk_score", "risk_level",
      "features_used", "timestamp"] ∧
    "intervention_needed" ∉ predictResponseKeys := by
  obtain ⟨fs, hE, rfl⟩ := predict_ok_inv db model now id r h
  exact ⟨rfl, rfl, extract_some_length db now id fs hE, rfl, rfl, by decide⟩

/-- C4 witness: the response-shape theorem instantiated on a concrete
successful prediction. -/
theorem c4_response_shape_witness :
    resp0.learner_id = oid1 ∧
    resp0.risk_level = riskLevel resp0.risk_score ∧
    resp0.features_used = 42 ∧
    resp0.timestamp = now0 ∧
    predictResponseKeys = ["learner_id", "risk_score", "risk_level",
      "features_used", "timestamp"] ∧
    "intervention_needed" ∉ predictResponseKeys :=
  c4_response_shape db0 model0 now0 oid1 resp0 (by with_unfolding_all rfl)

/-- C5 (code_bug): with `engagementData.totalHours` stored as IEEE NaN, the
serving extraction hands the classifier a vector whose `hours_per_day` and
`total_hours` slots are still NaN — no coercion to 0 exists in app.py,
although the spec requires it (`coerceNonFinite` is the spec-mandated
safety net, absent from the code). -/
theorem c5_nan_reaches_classifier :
    servingTotalHoursSlots PyFloat.nan 10 = [PyFloat.nan, PyFloat.nan] ∧
    (servingTotalHoursSlots PyFloat.nan 10).map coerceNonFinite =
      [PyFloat.num 0, PyFloat.num 0] ∧
    servingTotalHoursSlots PyFloat.nan 10 ≠
      (servingTotalHoursSlots PyFloat.nan 10).map coerceNonFinite := by
  refine ⟨by with_unfolding_all rfl, by with_unfolding_all rfl,
    by with_unfolding_all decide⟩

/-- C6: batch inference maps each identifier independently — the result list
has one entry per identifier, the i-th entry is an error marker exactly when
extraction fails for the i-th identifier, and a batch of three identifiers
whose 2nd fails yields exactly 2 successful assessments and 1 error entry. -/
theorem c6_batch_isolates_failures :
    (∀ (db : DB) (model : List ℚ → ℚ) (now : Int) (ids : List String),
      (predict_batch db model now ids).length = ids.length) ∧
    (∀ (db : DB) (model : List ℚ → ℚ) (now : Int) (ids : List String)
      (i : Nat), i < ids.length →
      (((predict_batch db model now ids).getD i (.error "" "")).isError = true ↔
        extract_learner_features db now (ids.getD i "") = none)) ∧
    (∀ (db : DB) (model : List ℚ → ℚ) (now : Int) (a b c : String),
      extract_learner_features db now a ≠ none →
      extract_learner_features db now b = none →
      extract_learner_features db now c ≠ none →
      ((predict_batch db model now [a, b, c]).filter
          (fun e => e.isError)).length = 1 ∧
      ((predict_batch db model now [a, b, c]).filter
          (fun e => !e.isError)).length = 2) := by
  refine ⟨?_, ?_, ?_⟩
  · intro db model now ids
    simp [predict_batch]
  · intro db model now ids i hi
    induction ids generalizing i with
    | nil => simp at hi
    | cons x xs ih =>
      cases i with
      | zero =>
        cases hx : extract_learner_features db now x <;>
          simp [predict_batch, hx, BatchEntry.isError]
      | succ n =>
        have hn : n < xs.length := by simpa using hi
        simpa [predict_batch] using ih n hn
  · intro db model now a b c ha hb hc
    obtain ⟨fa, hfa⟩ := Option.ne_none_iff_exists.mp ha
    obtain ⟨fc, hfc⟩ := Option.ne_none_iff_exists.mp hc
    constructor <;>
      simp [predict_batch, ← hfa, hb, ← hfc, BatchEntry.isError, List.filter]

/-- C6 witness: the three-identifier batch on the concrete store (`oid3`
has no learner record) yields 1 error entry and 2 successes, entry by
entry. -/
theorem c6_batch_isolates_failures_witness :
    ((predict_batch db0 model0 now0 [oid1, oid3, oid2]).filter
        (fun e => e.isError)).length = 1 ∧
    ((predict_batch db0 model0 now0 [oid1, oid3, oid2]).filter
        (fun e => !e.isError)).length = 2 :=
  c6_batch_isolates_failures.2.2 db0 model0 now0 oid1 oid3 oid2
    (by with_unfolding_all decide) (by decide) (by with_unfolding_all decide)

/-- Filtering with a weaker predicate keeps at least as many elements. -/
theorem length_filter_mono {α : Type} (l : List α) (p q : α → Bool)
    (hpq : ∀ a, p a = true → q a = true) :
    (l.filter p).length ≤ (l.filter q).length := by
  induction l with
  | nil => simp
  | cons a t ih =>
    simp only [List.filter_cons]
    cases hp : p a
    · cases hq : q a
      · simpa using ih
      · simp only [List.length_cons]
        exact le_trans ih (Nat.le_succ _)
    · rw [hpq a hp]
      simpa using ih

/-- C7 counterexample: on the same zero-enrollment learner the serving
extractor defaults `avg_risk_score`/`max_risk_score` to 0.3 while the
training extractor defaults them to 0 — there is no single neutral default
shared by training and inference. -/
theorem c7_neutral_default_divergence :
    (computeFeatures db0 now0 learnerNoEnroll []).avg_risk_score = 3/10 ∧
    (computeFeatures db0 now0 learnerNoEnroll []).max_risk_score = 3/10 ∧
    (trainingComputeFeatures db0 now0 (some 0) learnerNoEnroll []).avg_risk_score = 0 ∧
    (trainingComputeFeatures db0 now0 (some 0) learnerNoEnroll []).max_risk_score = 0 ∧
    (3/10 : ℚ) ≠ 0 := by
  refine ⟨by with_unfolding_all rfl, by with_unfolding_all rfl,
    by with_unfolding_all rfl, by with_unfolding_all rfl,
    by with_unfolding_all decide⟩

/-- C7 (amended): for every learner with zero enrollments, every
enrollment-aggregate feature equals 0 in both extractors, except the risk
defaults, which are fixed per implementation: 0.3 on the serving side and 0
on the training side; no aggregate is NaN (the model is exact rational
arithmetic, and every value is a literal constant here). -/
theorem c7_zero_enrollment_defaults (db : DB) (now : Int) (jd : Option Int)
    (learner : Learner) (acts : List Activity)
    (h : learner.enrollments = []) :
    (computeFeatures db now learner acts).avg_progress = 0 ∧
    (computeFeatures db now learner acts).max_progress = 0 ∧
    (computeFeatures db now learner acts).min_progress = 0 ∧
    (computeFeatures db now learner acts).progress_std = 0 ∧
    (computeFeatures db now learner acts).completed_courses = 0 ∧
    (computeFeatures db now learner acts).active_courses = 0 ∧
    (computeFeatures db now learner acts).at_risk_courses = 0 ∧
    (computeFeatures db now learner acts).beginner_courses = 0 ∧
    (computeFeatures db now learner acts).intermediate_courses = 0 ∧
    (computeFeatures db now learner acts).advanced_courses = 0 ∧
    (computeFeatures db now learner acts).avg_days_since_course_activity = 0 ∧
    (computeFeatures db now learner acts).max_days_since_course_activity = 0 ∧
    (computeFeatures db now learner acts).avg_risk_score = 3/10 ∧
    (computeFeatures db now learner acts).max_risk_score = 3/10 ∧
    (trainingComputeFeatures db now jd learner acts).avg_progress = 0 ∧
    (trainingComputeFeatures db now jd learner acts).max_progress = 0 ∧
    (trainingComputeFeatures db now jd learner acts).min_progress = 0 ∧
    (trainingComputeFeatures db now jd learner acts).progress_std = 0 ∧
    (trainingComputeFeatures db now jd learner acts).completed_courses = 0 ∧
    (trainingComputeFeatures db now jd learner acts).active_courses = 0 ∧
    (trainingComputeFeatures db now jd learner acts).at_risk_courses = 0 ∧
    (trainingComputeFeatures db now jd learner acts).beginner_courses = 0 ∧
    (trainingComputeFeatures db now jd learner acts).intermediate_courses = 0 ∧
    (trainingComputeFeatures db now jd learner acts).advanced_courses = 0 ∧
    (trainingComputeFeatures db now jd learner acts).avg_days_since_course_activity = 0 ∧
    (trainingComputeFeatures db now jd learner acts).max_days_since_course_activity = 0 ∧
    (trainingComputeFeatures db now jd learner acts).avg_risk_score = 0 ∧
    (trainingComputeFeatures db now jd learner acts).max_risk_score = 0 := by
  have hs : servingEnrollAgg db now learner.enrollments =
      { avg_progress := 0, max_progress := 0, min_progress := 0,
        progress_std := 0, avg_risk_score := 3/10, max_risk_score := 3/10,
        completed_courses := 0, active_courses := 0, at_risk_courses := 0,
        beginner_courses := 0, intermediate_courses := 0,
        advanced_courses := 0, avg_days_since_course_activity := 0,
        max_days_since_course_activity := 0 } := by
    rw [h]; with_unfolding_all rfl
  have ht : trainingEnrollAgg db now learner.enrollments =
      { avg_progress := 0, max_progress := 0, min_progress := 0,
        progress_std := 0, avg_risk_score := 0, max_risk_score := 0,
        completed_courses := 0, active_courses := 0, at_risk_courses := 0,
        beginner_courses := 0, intermediate_courses := 0,
        advanced_courses := 0, avg_days_since_course_activity := 0,
        max_days_since_course_activity := 0 } := by
    rw [h]; with_unfolding_all rfl
  simp [computeFeatures, trainingComputeFeatures, hs, ht]

/-- C7 witness: the zero-enrollment defaults instantiated on the concrete
zero-enrollment learner. -/
theorem c7_zero_enrollment_defaults_witness :
    (computeFeatures db0 now0 learnerNoEnroll []).avg_progress = 0 ∧
    (computeFeatures db0 now0 learnerNoEnroll []).max_progress = 0 ∧
    (computeFeatures db0 now0 learnerNoEnroll []).min_progress = 0 ∧
    (computeFeatures db0 now0 learnerNoEnroll []).progress_std = 0 ∧
    (computeFeatures db0 now0 learnerNoEnroll []).completed_courses = 0 ∧
    (computeFeatures db0 now0 learnerNoEnroll []).active_courses = 0 ∧
    (computeFeatures db0 now0 learnerNoEnroll []).at_risk_courses = 0 ∧
    (computeFeatures db0 now0 learnerNoEnroll []).beginner_courses = 0 ∧
    (computeFeatures db0 now0 learnerNoEnroll []).intermediate_courses = 0 ∧
    (computeFeatures db0 now0 learnerNoEnroll []).advanced_courses = 0 ∧
    (computeFeatures db0 now0 learnerNoEnroll []).avg_days_since_course_activity = 0 ∧
    (computeFeatures db0 now0 learnerNoEnroll []).max_days_since_course_activity = 0 ∧
    (computeFeatures db0 now0 learnerNoEnroll []).avg_risk_score = 3/10 ∧
    (computeFeatures db0 now0 learnerNoEnroll []).max_risk_score = 3/10 ∧
    (trainingComputeFeatures db0 now0 (some 0) learnerNoEnroll []).avg_progress = 0 ∧
    (trainingComputeFeatures db0 now0 (some 0) learnerNoEnroll []).max_progress = 0 ∧
    (trainingComputeFeatures db0 now0 (some 0) learnerNoEnroll []).min_progress = 0 ∧
    (trainingComputeFeatures db0 now0 (some 0) learnerNoEnroll []).progress_std = 0 ∧
    (trainingComputeFeatures db0 now0 (some 0) learnerNoEnroll []).completed_courses = 0 ∧
    (trainingComputeFeatures db0 now0 (some 0) learnerNoEnroll []).active_courses = 0 ∧
    (trainingComputeFeatures db0 now0 (some 0) learnerNoEnroll []).at_risk_courses = 0 ∧
    (trainingComputeFeatures db0 now0 (some 0) learnerNoEnroll []).beginner_courses = 0 ∧
    (trainingComputeFeatures db0 now0 (some 0) learnerNoEnroll []).intermediate_courses = 0 ∧
    (trainingComputeFeatures db0 now0 (some 0) learnerNoEnroll []).advanced_courses = 0 ∧
    (trainingComputeFeatures db0 now0 (some 0) learnerNoEnroll []).avg_days_since_course_activity = 0 ∧
    (trainingComputeFeatures db0 now0 (some 0) learnerNoEnroll []).max_days_since_course_activity = 0 ∧
    (trainingComputeFeatures db0 now0 (some 0) learnerNoEnroll []).avg_risk_score = 0 ∧
    (trainingComputeFeatures db0 now0 (some 0) learnerNoEnroll []).max_risk_score = 0 :=
  c7_zero_enrollment_defaults db0 now0 (some 0) learnerNoEnroll [] rfl

/-- C9: risk-level bucketing is monotonic — a lower probability never maps
to a strictly more severe bucket, under severity low < medium < high; the
bucketing function is the one shared by single and batch inference. -/
theorem c9_bucketing_monotone (p1 p2 : ℚ) (h : p1 < p2) :
    severity (riskLevel p1) ≤ severity (riskLevel p2) := by
  unfold riskLevel
  split_ifs <;> simp [severity] <;> linarith

/-- C9 witness: monotonicity instantiated at 0.1 < 0.9. -/
theorem c9_bucketing_monotone_witness :
    (1/10 : ℚ) < 9/10 ∧
    severity (riskLevel (1/10)) ≤ severity (riskLevel (9/10)) :=
  ⟨by norm_num, c9_bucketing_monotone (1/10) (9/10) (by norm_num)⟩

/-- C10: for every activity list and fixed `now`, the 7-day recent count
never exceeds the 30-day recent count, and `recent_activity_trend` always
lies in [0, 1]. -/
theorem c10_recent_window_and_trend (now : Int) (acts : List Activity)
    (dsj : Int) :
    recentCount now 7 acts ≤ recentCount now 30 acts ∧
    0 ≤ (servingActAgg now dsj acts).recent_activity_trend ∧
    (servingActAgg now dsj acts).recent_activity_trend ≤ 1 := by
  have hcount : recentCount now 7 acts ≤ recentCount now 30 acts := by
    unfold recentCount
    refine length_filter_mono acts _ _ (fun a ha => ?_)
    simp only [decide_eq_true_eq] at ha ⊢
    linarith
  refine ⟨hcount, ?_, ?_⟩
  · by_cases hne : acts.length > 0
    · simp only [servingActAgg, if_pos hne]
      split_ifs with h30
      · exact div_nonneg (Nat.cast_nonneg _) (Nat.cast_nonneg _)
      · exact le_refl 0
    · simp [servingActAgg, hne]
  · by_cases hne : acts.length > 0
    · simp only [servingActAgg, if_pos hne]
      split_ifs with h30
      · have hmax : max (recentCount now 30 acts) 1 = recentCount now 30 acts :=
          Nat.max_eq_left h30
        rw [hmax]
        refine (div_le_one (by exact_mod_cast h30)).mpr ?_
        exact_mod_cast hcount
      · norm_num
    · simp [servingActAgg, hne]

/-- The `activity_rate_daily` field of the serving activity aggregates as an
explicit guarded quotient. -/
theorem servingActAgg_rate (now : Int) (dsj : Int) (acts : List Activity) :
    (servingActAgg now dsj acts).activity_rate_daily =
      if acts.length > 0 then (acts.length : ℚ) / ((max dsj 1 : Int) : ℚ)
      else 0 := by
  unfold servingActAgg
  split_ifs with h <;> rfl

/-- The `recent_activity_trend` field of the serving activity aggregates as
an explicit guarded quotient. -/
theorem servingActAgg_trend (now : Int) (dsj : Int) (acts : List Activity) :
    (servingActAgg now dsj acts).recent_activity_trend =
      if acts.length > 0 then
        (if recentCount now 30 acts > 0 then
          ((recentCount now 7 acts : Nat) : ℚ) /
            ((max (recentCount now 30 acts) 1 : Nat) : ℚ)
        else 0)
      else 0 := by
  unfold servingActAgg
  split_ifs with h h3
  · show (if recentCount now 30 acts > 0 then
        ((recentCount now 7 acts : Nat) : ℚ) /
          ((max (recentCount now 30 acts) 1 : Nat) : ℚ)
      else 0) = _
    rw [if_pos h3]
  · show (if recentCount now 30 acts > 0 then
        ((recentCount now 7 acts : Nat) : ℚ) /
          ((max (recentCount now 30 acts) 1 : Nat) : ℚ)
      else 0) = _
    rw [if_neg h3]
  · rfl

set_option maxHeartbeats 2000000 in
/-- C8: no derived-ratio feature divides by zero — replaying every ratio of
`computeFeatures` with the checked division `qdiv?` succeeds on every input
(including `days_since_join = 0`), and returns exactly the seven ratio
features the extractor emits; in the exact rational model this makes every
ratio a finite number. -/
theorem c8_ratios_never_divide_by_zero (db : DB) (now : Int)
    (learner : Learner) (acts : List Activity) :
    checkedRatios db now learner acts = some
      [(computeFeatures db now learner acts).engagement_consistency,
       (computeFeatures db now learner acts).progress_rate,
       (computeFeatures db now learner acts).course_load,
       (computeFeatures db now learner acts).hours_per_day,
       (computeFeatures db now learner acts).activity_rate_daily,
       (computeFeatures db now learner acts).recent_activity_trend,
       (computeFeatures db now learner acts).high_risk_courses_ratio] := by
  have hint : ∀ d : Int, ((max d 1 : Int) : ℚ) ≠ 0 := by
    intro d
    have hd : (0 : Int) < max d 1 := lt_of_lt_of_le one_pos (le_max_right _ _)
    exact_mod_cast hd.ne'
  have hq : ∀ q : ℚ, max (q / 30) 1 ≠ 0 := by
    intro q
    have hd : (0 : ℚ) < max (q / 30) 1 := lt_of_lt_of_le one_pos (le_max_right _ _)
    exact hd.ne'
  have hnat : ∀ n : Nat, ((max n 1 : Nat) : ℚ) ≠ 0 := by
    intro n
    have hd : 0 < max n 1 := lt_of_lt_of_le one_pos (le_max_right _ _)
    exact_mod_cast hd.ne'
  have hmax1 : ∀ q : ℚ, max q 1 ≠ 0 := by
    intro q
    have hd : (0 : ℚ) < max q 1 := lt_of_lt_of_le one_pos (le_max_right _ _)
    exact hd.ne'
  have p1 : (computeFeatures db now learner acts).engagement_consistency =
      ((learner.engagementData.streakDays.getD 0 : Int) : ℚ) /
        ((max (max (now - learner.joinDate.getD now) 0) 1 : Int) : ℚ) := rfl
  have p2 : (computeFeatures db now learner acts).progress_rate =
      (if max (now - learner.joinDate.getD now) 0 > 0 then
        (servingEnrollAgg db now learner.enrollments).avg_progress /
          ((max (max (now - learner.joinDate.getD now) 0) 1 : Int) : ℚ)
      else 0) := rfl
  have p3 : (computeFeatures db now learner acts).course_load =
      (if max (now - learner.joinDate.getD now) 0 > 0 then
        (learner.enrollments.length : ℚ) /
          max (((max (now - learner.joinDate.getD now) 0 : Int) : ℚ) / 30) 1
      else 0) := rfl
  have p4 : (computeFeatures db now learner acts).hours_per_day =
      learner.engagementData.totalHours.getD 0 /
        ((max (max (now - learner.joinDate.getD now) 0) 1 : Int) : ℚ) := rfl
  have p5 : (computeFeatures db now learner acts).activity_rate_daily =
      (servingActAgg now (max (now - learner.joinDate.getD now) 0) acts).activity_rate_daily := rfl
  have p6 : (computeFeatures db now learner acts).recent_activity_trend =
      (servingActAgg now (max (now - learner.joinDate.getD now) 0) acts).recent_activity_trend := rfl
  have p7 : (computeFeatures db now learner acts).high_risk_courses_ratio =
      (if learner.enrollments.length > 0 then
        (servingEnrollAgg db now learner.enrollments).at_risk_courses /
          ((max learner.enrollments.length 1 : Nat) : ℚ)
      else 0) := rfl
  rw [p1, p2, p3, p4, p5, p6, p7, servingActAgg_rate, servingActAgg_trend]
  by_cases h1 : max (now - learner.joinDate.getD now) 0 > 0 <;>
  by_cases h2 : acts.length > 0 <;>
  by_cases h3 : recentCount now 30 acts > 0 <;>
  by_cases h4 : learner.enrollments.length > 0 <;>
    simp [checkedRatios, qdiv?, Option.some_bind, h1, h2, h3, h4,
      hint, hq, hnat, hmax1]
